import Mathlib

/-!
Verification of the `EventBlock` timeline component
(`src/components/Timeline/EventBlock.tsx`).

The component consumes a packed event (geometry assigned by the parent
packing algorithm), a theme slice, layout scalars and shared reactive
values, renders an animated rectangle, and dispatches press / long-press
callbacks with the event data augmented by computed layout geometry.

Numeric values are modelled as rationals (`ℚ`); the arithmetic involved
(`+`, `-`, `*`, `Math.max`) is exact.  Optional props are `Option`s, and
JavaScript truthiness of a number / string is spelled out explicitly.
Style values produced by the animated-style worklet are modelled by
`StyleVal`, which distinguishes an immediate assignment from a
`withTiming` transition (target value plus optional duration).
-/

namespace EventBlock

/-- A packed event as consumed by the component: presentational data plus
layout geometry (`left`, `width`, `startHour`, `duration`) assigned by the
parent packing algorithm, and the geometry fields (`top`, `height`,
`leftByIndex`) that the press handlers overwrite when building the
callback parameter object. -/
structure PackedEvent where
  id : String
  title : String
  color : Option String
  startHour : ℚ
  duration : ℚ
  left : ℚ
  width : ℚ
  top : ℚ
  height : ℚ
  leftByIndex : ℚ
deriving DecidableEq

/-- The slice of `ThemeProperties` the style computation reads. -/
structure ThemeProperties where
  minimumEventHeight : Option ℚ
deriving DecidableEq

/-- JavaScript truthiness of an optional number: `undefined` and `0` are
falsy, every other number is truthy. -/
def truthyNum : Option ℚ → Bool
  | none => false
  | some v => decide (v ≠ 0)

/-- JavaScript truthiness of an optional string: `undefined` and the empty
string are falsy. -/
def truthyStr : Option String → Bool
  | none => false
  | some s => decide (s ≠ "")

/-- The parameter object built by `_onPress`:
`{ ...event, top: event.startHour * heightByTimeInterval.value,
   height: event.duration * heightByTimeInterval.value,
   leftByIndex: columnWidth * dayIndex }`. -/
def onPressParams (event : PackedEvent)
    (heightByTimeInterval columnWidth dayIndex : ℚ) : PackedEvent :=
  { event with
    top := event.startHour * heightByTimeInterval
    height := event.duration * heightByTimeInterval
    leftByIndex := columnWidth * dayIndex }

/-- The parameter object built by `_onLongPress` (textually the same
construction as in `_onPress`). -/
def onLongPressParams (event : PackedEvent)
    (heightByTimeInterval columnWidth dayIndex : ℚ) : PackedEvent :=
  { event with
    top := event.startHour * heightByTimeInterval
    height := event.duration * heightByTimeInterval
    leftByIndex := columnWidth * dayIndex }

/-- Running `_onPress`: the list of arguments passed to `onPressEvent`.
`onPressEvent?.(eventParams)` calls the callback once when it is defined
and does nothing when it is `undefined`. -/
def onPressRun {α : Type} (onPressEvent : Option α) (event : PackedEvent)
    (heightByTimeInterval columnWidth dayIndex : ℚ) : List PackedEvent :=
  match onPressEvent with
  | none => []
  | some _ => [onPressParams event heightByTimeInterval columnWidth dayIndex]

/-- Running `_onLongPress`: the list of arguments passed to
`onLongPressEvent`. -/
def onLongPressRun {α : Type} (onLongPressEvent : Option α)
    (event : PackedEvent)
    (heightByTimeInterval columnWidth dayIndex : ℚ) : List PackedEvent :=
  match onLongPressEvent with
  | none => []
  | some _ =>
    [onLongPressParams event heightByTimeInterval columnWidth dayIndex]

/-- The shared reactive values the component reads
(`timeIntervalHeight`, `heightByTimeInterval`, `isPinchActive`). -/
structure SharedState where
  timeIntervalHeight : ℚ
  heightByTimeInterval : ℚ
  isPinchActive : Bool
deriving DecidableEq

/-- `_onPress` threaded through the shared state: the handler reads
`heightByTimeInterval.value` and never assigns to any shared value, so
the state it returns is the state it received. -/
def onPressStep {α : Type} (onPressEvent : Option α) (event : PackedEvent)
    (columnWidth dayIndex : ℚ) (st : SharedState) :
    SharedState × List PackedEvent :=
  (st, onPressRun onPressEvent event st.heightByTimeInterval columnWidth
        dayIndex)

/-- `_onLongPress` threaded through the shared state. -/
def onLongPressStep {α : Type} (onLongPressEvent : Option α)
    (event : PackedEvent) (columnWidth dayIndex : ℚ) (st : SharedState) :
    SharedState × List PackedEvent :=
  (st, onLongPressRun onLongPressEvent event st.heightByTimeInterval
        columnWidth dayIndex)

/-- A style value produced inside `useAnimatedStyle`: either an immediate
assignment or a `withTiming` transition towards a target value with an
optional explicit duration. -/
inductive StyleVal where
  | imm (v : ℚ)
  | timing (target : ℚ) (duration : Option ℚ)
deriving DecidableEq

/-- The value a style entry settles at: the value itself for an immediate
assignment, the transition target for a `withTiming` entry. -/
def StyleVal.target : StyleVal → ℚ
  | .imm v => v
  | .timing t _ => t

/-- Whether a style entry is an animated (`withTiming`) transition. -/
def StyleVal.isTiming : StyleVal → Bool
  | .imm _ => false
  | .timing _ _ => true

/-- The duration configuration of a style entry: `none` for an immediate
assignment, `some d` for a `withTiming` entry configured with duration
`d`. -/
def StyleVal.timingDuration : StyleVal → Option (Option ℚ)
  | .imm _ => none
  | .timing _ d => some d

/-- The object returned by the `eventStyle` worklet.  The pinch-active
branch returns no border-radius keys, hence the `Option`s. -/
structure EventStyle where
  top : StyleVal
  height : StyleVal
  left : StyleVal
  width : StyleVal
  borderTopLeftRadius : Option StyleVal
  borderTopRightRadius : Option StyleVal
  borderBottomLeftRadius : Option StyleVal
  borderBottomRightRadius : Option StyleVal
deriving DecidableEq

/-- `eventHoursPreviusDays = Math.max(event.startHour * -1, 0)`. -/
def eventHoursPreviusDays (event : PackedEvent) : ℚ :=
  max (event.startHour * (-1)) 0

/-- `eventHoursNextDays = Math.max(event.startHour + event.duration - 24, 0)`. -/
def eventHoursNextDays (event : PackedEvent) : ℚ :=
  max (event.startHour + event.duration - 24) 0

/-- `eventDurationValue = event.duration - eventHoursPreviusDays - eventHoursNextDays`. -/
def eventDurationValue (event : PackedEvent) : ℚ :=
  event.duration - eventHoursPreviusDays event - eventHoursNextDays event

/-- `eventStartHour = event.startHour + eventHoursPreviusDays`. -/
def eventStartHour (event : PackedEvent) : ℚ :=
  event.startHour + eventHoursPreviusDays event

/-- `eventStartHourValue = eventStartHour * heightByTimeInterval.value`,
then `eventStartHourValue += 1` (the Android drawer hotfix). -/
def eventStartHourValue (event : PackedEvent) (h : ℚ) : ℚ :=
  eventStartHour event * h + 1

/-- The height before the minimum-height clamp:
`eventHeight = eventDurationValue * heightByTimeInterval.value`, then
`eventHeight -= 2` (the Android drawer hotfix). -/
def eventRawHeight (event : PackedEvent) (h : ℚ) : ℚ :=
  eventDurationValue event * h - 2

/-- The height after
`if (theme.minimumEventHeight) { eventHeight = Math.max(theme.minimumEventHeight, eventHeight) }`,
with JavaScript truthiness: the clamp applies only when
`minimumEventHeight` is defined and nonzero. -/
def eventHeight (theme : ThemeProperties) (event : PackedEvent) (h : ℚ) :
    ℚ :=
  match theme.minimumEventHeight with
  | some m =>
    if m ≠ 0 then max m (eventRawHeight event h) else eventRawHeight event h
  | none => eventRawHeight event h

/-- The `eventStyle` worklet.  When `isPinchActive.value` holds it returns
immediate `top` / `height` / `left` / `width`; otherwise it returns
`withTiming` transitions for those four keys, configured with
`eventAnimatedDuration`, plus immediate border radii: the top corners are
square when the event spills over from a previous day
(`eventHoursPreviusDays > 0`), the bottom corners when it spills into a
next day (`eventHoursNextDays > 0`). -/
def eventStyle (event : PackedEvent) (theme : ThemeProperties)
    (columnWidth dayIndex : ℚ) (eventAnimatedDuration : Option ℚ)
    (heightByTimeInterval : ℚ) (isPinchActive : Bool) : EventStyle :=
  let top := eventStartHourValue event heightByTimeInterval
  let h := eventHeight theme event heightByTimeInterval
  if isPinchActive then
    { top := .imm top
      height := .imm h
      left := .imm (event.left + columnWidth * dayIndex)
      width := .imm event.width
      borderTopLeftRadius := none
      borderTopRightRadius := none
      borderBottomLeftRadius := none
      borderBottomRightRadius := none }
  else
    { top := .timing top eventAnimatedDuration
      height := .timing h eventAnimatedDuration
      left := .timing (event.left + columnWidth * dayIndex)
               eventAnimatedDuration
      width := .timing event.width eventAnimatedDuration
      borderTopLeftRadius :=
        some (.imm (if eventHoursPreviusDays event > 0 then 0 else 4))
      borderTopRightRadius :=
        some (.imm (if eventHoursPreviusDays event > 0 then 0 else 4))
      borderBottomLeftRadius :=
        some (.imm (if eventHoursNextDays event > 0 then 0 else 4))
      borderBottomRightRadius :=
        some (.imm (if eventHoursNextDays event > 0 then 0 else 4)) }

/-- `eventOpacity = selectedEventId ? 0.5 : 1`. -/
def eventOpacity (selectedEventId : Option String) : ℚ :=
  if truthyStr selectedEventId then 1 / 2 else 1

/-- The `disabled` prop of the touchable: `!!selectedEventId`. -/
def touchableDisabled (selectedEventId : Option String) : Bool :=
  truthyStr selectedEventId

/-- A press on the rendered `TouchableOpacity`.  The framework suppresses
`onPress` while `disabled` is true, so the handler runs only when the
touchable is enabled. -/
def pressDispatch {α : Type} (selectedEventId : Option String)
    (onPressEvent : Option α) (event : PackedEvent)
    (heightByTimeInterval columnWidth dayIndex : ℚ) : List PackedEvent :=
  if touchableDisabled selectedEventId then []
  else onPressRun onPressEvent event heightByTimeInterval columnWidth
        dayIndex

/-- A long press on the rendered `TouchableOpacity`, suppressed while
`disabled` is true. -/
def longPressDispatch {α : Type} (selectedEventId : Option String)
    (onLongPressEvent : Option α) (event : PackedEvent)
    (heightByTimeInterval columnWidth dayIndex : ℚ) : List PackedEvent :=
  if touchableDisabled selectedEventId then []
  else onLongPressRun onLongPressEvent event heightByTimeInterval
        columnWidth dayIndex

end EventBlock

namespace EventBlock

/-! ### Helper lemmas -/

theorem eventHoursPreviusDays_pos_iff (event : PackedEvent) :
    0 < eventHoursPreviusDays event ↔ event.startHour < 0 := by
  simp [eventHoursPreviusDays, lt_max_iff, mul_neg_one, neg_pos]

theorem eventHoursNextDays_pos_iff (event : PackedEvent) :
    0 < eventHoursNextDays event ↔ 24 < event.startHour + event.duration := by
  simp [eventHoursNextDays, lt_max_iff, sub_pos]

theorem eventStartHour_eq_max (event : PackedEvent) :
    eventStartHour event = max event.startHour 0 := by
  rcases le_total event.startHour 0 with h | h
  · simp [eventStartHour, eventHoursPreviusDays, mul_neg_one,
      max_eq_left (neg_nonneg.mpr h), max_eq_right h]
  · simp [eventStartHour, eventHoursPreviusDays, mul_neg_one,
      max_eq_right (neg_nonpos.mpr h), max_eq_left h]

theorem eventStyle_top_target (event : PackedEvent) (theme : ThemeProperties)
    (columnWidth dayIndex : ℚ) (d : Option ℚ) (h : ℚ) (isPinchActive : Bool) :
    (eventStyle event theme columnWidth dayIndex d h isPinchActive).top.target
      = eventStartHourValue event h := by
  cases isPinchActive <;> rfl

theorem eventStyle_height_target (event : PackedEvent)
    (theme : ThemeProperties) (columnWidth dayIndex : ℚ) (d : Option ℚ)
    (h : ℚ) (isPinchActive : Bool) :
    (eventStyle event theme columnWidth dayIndex d h
        isPinchActive).height.target = eventHeight theme event h := by
  cases isPinchActive <;> rfl

theorem eventHeight_of_falsy (theme : ThemeProperties) (event : PackedEvent)
    (h : ℚ) (ht : truthyNum theme.minimumEventHeight = false) :
    eventHeight theme event h = eventRawHeight event h := by
  cases hm : theme.minimumEventHeight with
  | none => simp [eventHeight, hm]
  | some m =>
    rw [hm] at ht
    simp only [truthyNum, decide_eq_false_iff_not, not_not] at ht
    simp [eventHeight, hm, ht]

end EventBlock

namespace EventBlock

/-! ### Claim theorems -/

/-- C1: both press handlers pass the callback the event record spread
together with `top = event.startHour * heightByTimeInterval.value`,
`height = event.duration * heightByTimeInterval.value` and
`leftByIndex = columnWidth * dayIndex`; every other field of the event is
carried over unchanged, and `_onPress` and `_onLongPress` build identical
parameter objects. -/
theorem C1_press_params_geometry (event : PackedEvent)
    (heightByTimeInterval columnWidth dayIndex : ℚ) :
    onPressParams event heightByTimeInterval columnWidth dayIndex =
      onLongPressParams event heightByTimeInterval columnWidth dayIndex ∧
    onPressParams event heightByTimeInterval columnWidth dayIndex =
      { event with
        top := event.startHour * heightByTimeInterval
        height := event.duration * heightByTimeInterval
        leftByIndex := columnWidth * dayIndex } ∧
    (onPressParams event heightByTimeInterval columnWidth dayIndex).id
      = event.id ∧
    (onPressParams event heightByTimeInterval columnWidth dayIndex).title
      = event.title ∧
    (onPressParams event heightByTimeInterval columnWidth dayIndex).color
      = event.color ∧
    (onPressParams event heightByTimeInterval columnWidth
        dayIndex).startHour = event.startHour ∧
    (onPressParams event heightByTimeInterval columnWidth
        dayIndex).duration = event.duration ∧
    (onPressParams event heightByTimeInterval columnWidth dayIndex).left
      = event.left ∧
    (onPressParams event heightByTimeInterval columnWidth dayIndex).width
      = event.width :=
  ⟨rfl, rfl, rfl, rfl, rfl, rfl, rfl, rfl, rfl⟩

/-- C3: in both the pinch-active branch (immediate values) and the
animated branch (transition targets), the horizontal position is
`left = event.left + columnWidth * dayIndex` and the width is
`event.width`. -/
theorem C3_horizontal_geometry (event : PackedEvent)
    (theme : ThemeProperties) (columnWidth dayIndex : ℚ) (d : Option ℚ)
    (h : ℚ) (isPinchActive : Bool) :
    (eventStyle event theme columnWidth dayIndex d h
        isPinchActive).left.target = event.left + columnWidth * dayIndex ∧
    (eventStyle event theme columnWidth dayIndex d h
        isPinchActive).width.target = event.width := by
  cases isPinchActive <;> exact ⟨rfl, rfl⟩

/-- C4: when pinch is not active, the top border radii are `0` when
`event.startHour < 0` (the event continues from a previous day) and `4`
otherwise, and the bottom border radii are `0` when
`event.startHour + event.duration > 24` (the event continues into a next
day) and `4` otherwise. -/
theorem C4_border_radii (event : PackedEvent) (theme : ThemeProperties)
    (columnWidth dayIndex : ℚ) (d : Option ℚ) (h : ℚ) :
    (eventStyle event theme columnWidth dayIndex d h
        false).borderTopLeftRadius
      = some (.imm (if event.startHour < 0 then 0 else 4)) ∧
    (eventStyle event theme columnWidth dayIndex d h
        false).borderTopRightRadius
      = some (.imm (if event.startHour < 0 then 0 else 4)) ∧
    (eventStyle event theme columnWidth dayIndex d h
        false).borderBottomLeftRadius
      = some (.imm (if event.startHour + event.duration > 24 then 0 else 4)) ∧
    (eventStyle event theme columnWidth dayIndex d h
        false).borderBottomRightRadius
      = some (.imm (if event.startHour + event.duration > 24 then 0 else 4)) := by
  have h1 := eventHoursPreviusDays_pos_iff event
  have h2 := eventHoursNextDays_pos_iff event
  refine ⟨?_, ?_, ?_, ?_⟩
  · exact congrArg (fun c : ℚ => some (StyleVal.imm c))
      (if_congr h1 rfl rfl)
  · exact congrArg (fun c : ℚ => some (StyleVal.imm c))
      (if_congr h1 rfl rfl)
  · exact congrArg (fun c : ℚ => some (StyleVal.imm c))
      (if_congr h2 rfl rfl)
  · exact congrArg (fun c : ℚ => some (StyleVal.imm c))
      (if_congr h2 rfl rfl)

/-- C5: an `undefined` press (respectively long-press) callback makes the
handler a no-op, and a defined callback is invoked exactly once per
press. -/
theorem C5_optional_callbacks {α : Type} (event : PackedEvent)
    (heightByTimeInterval columnWidth dayIndex : ℚ) :
    onPressRun (none : Option α) event heightByTimeInterval columnWidth
        dayIndex = [] ∧
    onLongPressRun (none : Option α) event heightByTimeInterval
        columnWidth dayIndex = [] ∧
    ∀ cb : α,
      (onPressRun (some cb) event heightByTimeInterval columnWidth
          dayIndex).length = 1 ∧
      (onLongPressRun (some cb) event heightByTimeInterval columnWidth
          dayIndex).length = 1 :=
  ⟨rfl, rfl, fun _ => ⟨rfl, rfl⟩⟩

/-- C6: the press handlers leave the shared reactive state unchanged, and
the parameter object they pass to the callback is a fresh record that
agrees with the original event on every field other than the `top`,
`height` and `leftByIndex` geometry it overwrites, so the original event
record is never mutated. -/
theorem C6_read_only {α : Type} (p lp : Option α) (event : PackedEvent)
    (columnWidth dayIndex : ℚ) (st : SharedState) :
    (onPressStep p event columnWidth dayIndex st).1 = st ∧
    (onLongPressStep lp event columnWidth dayIndex st).1 = st ∧
    (onPressParams event st.heightByTimeInterval columnWidth dayIndex).id
      = event.id ∧
    (onPressParams event st.heightByTimeInterval columnWidth
        dayIndex).title = event.title ∧
    (onPressParams event st.heightByTimeInterval columnWidth
        dayIndex).color = event.color ∧
    (onPressParams event st.heightByTimeInterval columnWidth
        dayIndex).startHour = event.startHour ∧
    (onPressParams event st.heightByTimeInterval columnWidth
        dayIndex).duration = event.duration ∧
    (onPressParams event st.heightByTimeInterval columnWidth
        dayIndex).left = event.left ∧
    (onPressParams event st.heightByTimeInterval columnWidth
        dayIndex).width = event.width ∧
    (onLongPressParams event st.heightByTimeInterval columnWidth
        dayIndex).id = event.id ∧
    (onLongPressParams event st.heightByTimeInterval columnWidth
        dayIndex).title = event.title ∧
    (onLongPressParams event st.heightByTimeInterval columnWidth
        dayIndex).color = event.color ∧
    (onLongPressParams event st.heightByTimeInterval columnWidth
        dayIndex).startHour = event.startHour ∧
    (onLongPressParams event st.heightByTimeInterval columnWidth
        dayIndex).duration = event.duration ∧
    (onLongPressParams event st.heightByTimeInterval columnWidth
        dayIndex).left = event.left ∧
    (onLongPressParams event st.heightByTimeInterval columnWidth
        dayIndex).width = event.width :=
  ⟨rfl, rfl, rfl, rfl, rfl, rfl, rfl, rfl, rfl, rfl, rfl, rfl, rfl, rfl,
   rfl, rfl⟩

/-- C7: the rendered vertical segment is the intersection of the event
interval with the day: the top value (immediate, or transition target) is
`max(event.startHour, 0) * heightByTimeInterval.value + 1`, and the
height before the minimum-height clamp is
`(event.duration - max(-event.startHour, 0) - max(event.startHour + event.duration - 24, 0)) * heightByTimeInterval.value - 2`. -/
theorem C7_day_intersection (event : PackedEvent) (theme : ThemeProperties)
    (columnWidth dayIndex : ℚ) (d : Option ℚ) (h : ℚ)
    (isPinchActive : Bool) :
    (eventStyle event theme columnWidth dayIndex d h
        isPinchActive).top.target = max event.startHour 0 * h + 1 ∧
    eventRawHeight event h =
      (event.duration - max (-event.startHour) 0
        - max (event.startHour + event.duration - 24) 0) * h - 2 := by
  constructor
  · rw [eventStyle_top_target, eventStartHourValue, eventStartHour_eq_max]
  · simp [eventRawHeight, eventDurationValue, eventHoursPreviusDays,
      eventHoursNextDays, mul_neg_one]

end EventBlock

namespace EventBlock

/-- C2 counterexample: the claim that every geometry change is rendered as
an animated transition fails at a concrete input.  While a pinch is
active the style's `top` is an immediate assignment, and even in the
animated branch the corner-rounding entries are immediate assignments,
never `withTiming` transitions. -/
theorem C2_counterexample :
    ((eventStyle
        { id := "1", title := "event", color := none, startHour := 1,
          duration := 2, left := 0, width := 50, top := 0, height := 0,
          leftByIndex := 0 }
        { minimumEventHeight := none } 100 0 (some 250) 10
        true).top).isTiming = false ∧
    ((eventStyle
        { id := "1", title := "event", color := none, startHour := 1,
          duration := 2, left := 0, width := 50, top := 0, height := 0,
          leftByIndex := 0 }
        { minimumEventHeight := none } 100 0 (some 250) 10
        false).borderTopLeftRadius.map StyleVal.isTiming) = some false :=
  ⟨rfl, rfl⟩

/-- C2 (amended): when pinch is not active, the `top`, `height`, `left`
and `width` style entries are `withTiming` transitions configured with
duration `eventAnimatedDuration`, while the four corner radii are
immediate assignments; while a pinch is active, `top`, `height`, `left`
and `width` are immediate assignments and no border radii are returned. -/
theorem C2_style_animation (event : PackedEvent) (theme : ThemeProperties)
    (columnWidth dayIndex : ℚ) (d : Option ℚ) (h : ℚ) :
    ((eventStyle event theme columnWidth dayIndex d h
        false).top.timingDuration = some d ∧
     (eventStyle event theme columnWidth dayIndex d h
        false).height.timingDuration = some d ∧
     (eventStyle event theme columnWidth dayIndex d h
        false).left.timingDuration = some d ∧
     (eventStyle event theme columnWidth dayIndex d h
        false).width.timingDuration = some d ∧
     (eventStyle event theme columnWidth dayIndex d h
        false).borderTopLeftRadius.map StyleVal.isTiming = some false ∧
     (eventStyle event theme columnWidth dayIndex d h
        false).borderTopRightRadius.map StyleVal.isTiming = some false ∧
     (eventStyle event theme columnWidth dayIndex d h
        false).borderBottomLeftRadius.map StyleVal.isTiming = some false ∧
     (eventStyle event theme columnWidth dayIndex d h
        false).borderBottomRightRadius.map StyleVal.isTiming
       = some false) ∧
    ((eventStyle event theme columnWidth dayIndex d h
        true).top.isTiming = false ∧
     (eventStyle event theme columnWidth dayIndex d h
        true).height.isTiming = false ∧
     (eventStyle event theme columnWidth dayIndex d h
        true).left.isTiming = false ∧
     (eventStyle event theme columnWidth dayIndex d h
        true).width.isTiming = false ∧
     (eventStyle event theme columnWidth dayIndex d h
        true).borderTopLeftRadius = none ∧
     (eventStyle event theme columnWidth dayIndex d h
        true).borderTopRightRadius = none ∧
     (eventStyle event theme columnWidth dayIndex d h
        true).borderBottomLeftRadius = none ∧
     (eventStyle event theme columnWidth dayIndex d h
        true).borderBottomRightRadius = none) :=
  ⟨⟨rfl, rfl, rfl, rfl, rfl, rfl, rfl, rfl⟩,
   ⟨rfl, rfl, rfl, rfl, rfl, rfl, rfl, rfl⟩⟩

/-- C8: a defined, nonzero `theme.minimumEventHeight` bounds the rendered
height from below; when it is `undefined` or `0` the rendered height is
exactly the clamped duration times `heightByTimeInterval.value` minus
`2`, which is negative for sufficiently short events. -/
theorem C8_minimum_height (event : PackedEvent) (theme : ThemeProperties)
    (columnWidth dayIndex : ℚ) (d : Option ℚ) (h : ℚ)
    (isPinchActive : Bool) :
    (∀ m : ℚ, theme.minimumEventHeight = some m → m ≠ 0 →
      m ≤ (eventStyle event theme columnWidth dayIndex d h
            isPinchActive).height.target) ∧
    (truthyNum theme.minimumEventHeight = false →
      (eventStyle event theme columnWidth dayIndex d h
          isPinchActive).height.target = eventRawHeight event h) ∧
    ∃ e : PackedEvent, ∃ hv : ℚ, eventRawHeight e hv < 0 := by
  refine ⟨?_, ?_, ?_⟩
  · intro m hm hm0
    rw [eventStyle_height_target]
    simp only [eventHeight, hm, if_pos hm0]
    exact le_max_left m (eventRawHeight event h)
  · intro ht
    rw [eventStyle_height_target, eventHeight_of_falsy theme event h ht]
  · refine ⟨{ id := "1", title := "event", color := none, startHour := 0,
              duration := 0, left := 0, width := 50, top := 0,
              height := 0, leftByIndex := 0 }, 10, ?_⟩
    norm_num [eventRawHeight, eventDurationValue, eventHoursPreviusDays,
      eventHoursNextDays]

/-- C8 witness: the theorem instantiated at concrete inputs, with
`minimumEventHeight = 5` for the clamp and `undefined` for the
pass-through. -/
theorem C8_minimum_height_witness :
    (5 : ℚ) ≤ (eventStyle
        { id := "1", title := "event", color := none, startHour := 1,
          duration := 2, left := 0, width := 50, top := 0, height := 0,
          leftByIndex := 0 }
        { minimumEventHeight := some 5 } 100 0 (some 250) 10
        false).height.target ∧
    (eventStyle
        { id := "1", title := "event", color := none, startHour := 1,
          duration := 2, left := 0, width := 50, top := 0, height := 0,
          leftByIndex := 0 }
        { minimumEventHeight := none } 100 0 (some 250) 10
        false).height.target =
      eventRawHeight
        { id := "1", title := "event", color := none, startHour := 1,
          duration := 2, left := 0, width := 50, top := 0, height := 0,
          leftByIndex := 0 } 10 :=
  ⟨(C8_minimum_height
      { id := "1", title := "event", color := none, startHour := 1,
        duration := 2, left := 0, width := 50, top := 0, height := 0,
        leftByIndex := 0 }
      { minimumEventHeight := some 5 } 100 0 (some 250) 10 false).1 5 rfl
      (by norm_num),
   (C8_minimum_height
      { id := "1", title := "event", color := none, startHour := 1,
        duration := 2, left := 0, width := 50, top := 0, height := 0,
        leftByIndex := 0 }
      { minimumEventHeight := none } 100 0 (some 250) 10 false).2.1 rfl⟩

/-- C9: a truthy `selectedEventId` (any non-empty string) renders the
block at opacity `0.5` and disables the touchable, so neither callback
can be invoked by a press or a long press; an absent or empty
`selectedEventId` renders at opacity `1` with the touchable enabled, and
the dispatches run the corresponding handlers. -/
theorem C9_selected_event {α : Type} (sel : Option String) (p lp : Option α)
    (event : PackedEvent) (heightByTimeInterval columnWidth dayIndex : ℚ) :
    (truthyStr sel = true →
      eventOpacity sel = 1 / 2 ∧
      touchableDisabled sel = true ∧
      pressDispatch sel p event heightByTimeInterval columnWidth dayIndex
        = [] ∧
      longPressDispatch sel lp event heightByTimeInterval columnWidth
        dayIndex = []) ∧
    (truthyStr sel = false →
      eventOpacity sel = 1 ∧
      touchableDisabled sel = false ∧
      pressDispatch sel p event heightByTimeInterval columnWidth dayIndex
        = onPressRun p event heightByTimeInterval columnWidth dayIndex ∧
      longPressDispatch sel lp event heightByTimeInterval columnWidth
        dayIndex
        = onLongPressRun lp event heightByTimeInterval columnWidth
            dayIndex) := by
  constructor
  · intro ht
    exact ⟨by simp [eventOpacity, ht], ht,
      by simp [pressDispatch, touchableDisabled, ht],
      by simp [longPressDispatch, touchableDisabled, ht]⟩
  · intro ht
    exact ⟨by simp [eventOpacity, ht], ht,
      by simp [pressDispatch, touchableDisabled, ht],
      by simp [longPressDispatch, touchableDisabled, ht]⟩

/-- C9 witness: the theorem instantiated with a selected event id `"x"`
and with no selected event id, at a concrete event and concrete layout
scalars. -/
theorem C9_selected_event_witness :
    (eventOpacity (some "x") = 1 / 2 ∧
     touchableDisabled (some "x") = true ∧
     pressDispatch (some "x") (some ())
       { id := "1", title := "event", color := none, startHour := 1,
         duration := 2, left := 0, width := 50, top := 0, height := 0,
         leftByIndex := 0 } 10 100 0 = [] ∧
     longPressDispatch (some "x") (some ())
       { id := "1", title := "event", color := none, startHour := 1,
         duration := 2, left := 0, width := 50, top := 0, height := 0,
         leftByIndex := 0 } 10 100 0 = []) ∧
    (eventOpacity none = 1 ∧
     touchableDisabled none = false ∧
     pressDispatch none (some ())
       { id := "1", title := "event", color := none, startHour := 1,
         duration := 2, left := 0, width := 50, top := 0, height := 0,
         leftByIndex := 0 } 10 100 0
       = onPressRun (some ())
           { id := "1", title := "event", color := none, startHour := 1,
             duration := 2, left := 0, width := 50, top := 0, height := 0,
             leftByIndex := 0 } 10 100 0 ∧
     longPressDispatch none (some ())
       { id := "1", title := "event", color := none, startHour := 1,
         duration := 2, left := 0, width := 50, top := 0, height := 0,
         leftByIndex := 0 } 10 100 0
       = onLongPressRun (some ())
           { id := "1", title := "event", color := none, startHour := 1,
             duration := 2, left := 0, width := 50, top := 0, height := 0,
             leftByIndex := 0 } 10 100 0) :=
  ⟨(C9_selected_event (some "x") (some ()) (some ())
      { id := "1", title := "event", color := none, startHour := 1,
        duration := 2, left := 0, width := 50, top := 0, height := 0,
        leftByIndex := 0 } 10 100 0).1 (by decide),
   (C9_selected_event none (some ()) (some ())
      { id := "1", title := "event", color := none, startHour := 1,
        duration := 2, left := 0, width := 50, top := 0, height := 0,
        leftByIndex := 0 } 10 100 0).2 rfl⟩

end EventBlock
